import Mathlib

/-!
Shallow embedding of `mmovod/data/custom_dataset_mapper.py`
(`CustomDatasetMapper.__init__` and `CustomDatasetMapper.__call__`).

Python dicts become structures with `Option` fields; in-place mutation
becomes explicit state passing on a working copy of the record; fallible
steps (KeyError, IndexError, AttributeError, NotImplementedError, the
image-size assertion) return `Except Err`.

External collaborators (detectron2 / fvcore utilities, the filesystem)
are modelled as follows:
- `World` supplies image decoding (`utils.read_image`), quantified over in
  all theorems;
- augmentation pipelines (`T.AugmentationList`) are concrete data carrying
  an identifier; applying a pipeline returns that identifier as the sampled
  concrete transform, and transforms act on images, boxes, masks and
  keypoints by a simple concrete shift model — the claims under study are
  about pipeline selection and record plumbing, not geometry;
- `utils.transform_instance_annotations`, `utils.annotations_to_instances`,
  `utils.filter_empty_instances`, `BitMasks.get_bounding_boxes` and
  `utils.check_image_size` are modelled from their documented detectron2
  behaviour (transform all geometry fields; parallel per-field instance
  columns with masks/keypoints present iff the first annotation carries
  them; keep instances with a non-degenerate box and non-empty mask;
  tight bounding box of the mask's points; compare recorded width/height
  with the decoded image and backfill them).
-/

namespace MMOvod

/-- Failure modes surfaced by the mapper (Python exception classes). -/
inductive Err where
  | notImplementedError
  | keyError
  | indexError
  | attributeError
  | sizeMismatchError
  | assertionError
deriving DecidableEq

/-- A decoded image: height, width and an abstract pixel content tag. -/
structure Image where
  h : Nat
  w : Nat
  pix : Nat
deriving DecidableEq

/-- An augmentation pipeline (`T.AugmentationList`), identified by a tag. -/
structure AugmentationList where
  id : Nat
deriving DecidableEq

/-- The concrete transform sampled by applying a pipeline (its tag). -/
abbrev TransformList := Nat

/-- An axis-aligned box in XYXY convention. -/
structure Box where
  x0 : Nat
  y0 : Nat
  x1 : Nat
  y1 : Nat
deriving DecidableEq

/-- An instance mask, as the set (list) of its pixels. -/
abbrev Mask := List (Nat × Nat)

/-- One raw object annotation of a dataset record. -/
structure Annotation where
  bbox : Box
  category_id : Int
  segmentation : Option Mask
  keypoints : Option Nat
  iscrowd : Option Nat
deriving DecidableEq

/-- The per-image instance collection (detectron2 `Instances`): parallel
per-field columns; masks/keypoints are present only when provided. -/
structure Instances where
  gt_boxes : List Box
  gt_classes : List Int
  gt_masks : Option (List Mask)
  gt_keypoints : Option (List Nat)
deriving DecidableEq

/-- A dataset record (the Python `dataset_dict`), with its optional input
keys and the output keys the mapper may add. -/
structure DatasetDict where
  file_name : Option String
  tar_index : Option Nat
  width : Option Nat
  height : Option Nat
  sem_seg_file_name : Option String
  annotations : Option (List Annotation)
  dataset_source : Option Nat
  pos_category_ids : Option (List Int)
  proposal_boxes : Option (List Box)
  image : Option Image
  sem_seg : Option Image
  proposals : Option (List Box)
  instances : Option Instances
  ann_type : Option String
deriving DecidableEq

/-- A record with every key absent. -/
def emptyDict : DatasetDict :=
  { file_name := none, tar_index := none, width := none, height := none,
    sem_seg_file_name := none, annotations := none, dataset_source := none,
    pos_category_ids := none, proposal_boxes := none, image := none,
    sem_seg := none, proposals := none, instances := none, ann_type := none }

/-- The constructed mapper: configuration resolved at `__init__` time
(custom fields plus the inherited `DatasetMapper` base fields used by
`__call__`). No `tar_dataset` attribute exists: no code path ever sets it. -/
structure Mapper where
  is_train : Bool
  with_ann_type : Bool
  dataset_ann : List String
  use_diff_bs_size : Bool
  dataset_augs : List AugmentationList
  is_debug : Bool
  use_tar_dataset : Bool
  augmentations : AugmentationList
  image_format : String
  use_instance_mask : Bool
  use_keypoint : Bool
  instance_mask_format : String
  recompute_boxes : Bool
  proposal_topk : Option Nat
deriving DecidableEq

/-- Arguments of `CustomDatasetMapper.__init__` (custom keywords plus the
base `DatasetMapper` keywords forwarded through `**kwargs`). -/
structure MapperArgs where
  is_train : Bool
  with_ann_type : Bool := false
  dataset_ann : List String := []
  use_diff_bs_size : Bool := false
  dataset_augs : List AugmentationList := []
  is_debug : Bool := false
  use_tar_dataset : Bool := false
  tarfile_path : String := ""
  tar_index_dir : String := ""
  augmentations : AugmentationList := ⟨0⟩
  image_format : String := "BGR"
  use_instance_mask : Bool := false
  use_keypoint : Bool := false
  instance_mask_format : String := "polygon"
  recompute_boxes : Bool := false
  proposal_topk : Option Nat := none
deriving DecidableEq

/-- Model of `CustomDatasetMapper.__init__` (lines 24-46): store the custom flags,
wrap the per-dataset pipelines only when training with `use_diff_bs_size`,
reject `use_tar_dataset` with `NotImplementedError`, then run the base
`DatasetMapper.__init__` (external; modelled by its field assignments and
its documented assertion that `recompute_boxes` requires instance masks). -/
def CustomDatasetMapper.init (a : MapperArgs) : Except Err Mapper :=
  if a.use_tar_dataset then
    .error .notImplementedError
  else if a.recompute_boxes && !a.use_instance_mask then
    .error .assertionError
  else
    .ok { is_train := a.is_train,
          with_ann_type := a.with_ann_type,
          dataset_ann := a.dataset_ann,
          use_diff_bs_size := a.use_diff_bs_size,
          dataset_augs :=
            if a.use_diff_bs_size && a.is_train then a.dataset_augs else [],
          is_debug := a.is_debug,
          use_tar_dataset := a.use_tar_dataset,
          augmentations := a.augmentations,
          image_format := a.image_format,
          use_instance_mask := a.use_instance_mask,
          use_keypoint := a.use_keypoint,
          instance_mask_format := a.instance_mask_format,
          recompute_boxes := a.recompute_boxes,
          proposal_topk := a.proposal_topk }

/-- The external world: filesystem-backed image decoding
(`utils.read_image` for the main image and the "L"-mode semantic mask). -/
structure World where
  read_image : String → String → Image
  read_sem : String → Image

/-- Lines 87-93: resolve the image. With a `file_name`, decode it in the
configured format; otherwise the code dereferences `self.tar_dataset`,
an attribute that no code path ever initializes, so the call raises
`AttributeError`. -/
def loadOrigImage (w : World) (m : Mapper) (d : DatasetDict) : Except Err Image :=
  match d.file_name with
  | some f => .ok (w.read_image f m.image_format)
  | none => .error .attributeError

/-- Line 94, `utils.check_image_size` (external, modelled): when the record
carries expected `width`/`height`, compare them against the decoded image
(raising on mismatch, and raising KeyError when only one is present);
backfill absent `width`/`height` from the image. -/
def check_image_size (d : DatasetDict) (im : Image) : Except Err DatasetDict :=
  match d.width, d.height with
  | some ww, some hh =>
      if ww = im.w ∧ hh = im.h then .ok d else .error .sizeMismatchError
  | some _, none => .error .keyError
  | none, some _ => .error .keyError
  | none, none => .ok { d with width := some im.w, height := some im.h }

/-- Lines 97-101: pop `sem_seg_file_name` and decode it as a single-channel
label map when present. -/
def popSemSeg (w : World) (d : DatasetDict) : Option Image × DatasetDict :=
  match d.sem_seg_file_name with
  | some f => (some (w.read_sem f), { d with sem_seg_file_name := none })
  | none => (none, d)

/-- Lines 103-104: `is_debug` forces `dataset_source` to 0. -/
def debugForce (m : Mapper) (d : DatasetDict) : DatasetDict :=
  if m.is_debug then { d with dataset_source := some 0 } else d

/-- Lines 106-108: the (unused) `not_full_labeled` computation; it can still
raise `IndexError` when `dataset_source` is out of range of `dataset_ann`. -/
def notFullLabeled (m : Mapper) (d : DatasetDict) : Except Err Bool :=
  match d.dataset_source with
  | some ds =>
      if m.with_ann_type then
        match m.dataset_ann.get? ds with
        | some t => .ok (t != "box")
        | none => .error .indexError
      else .ok false
  | none => .ok false

/-- Lines 111-115: select the pipeline from the working record's
`dataset_source` when training with `use_diff_bs_size`, otherwise the
single shared `self.augmentations`. -/
def selectedAugs (m : Mapper) (ds : Option Nat) : Except Err AugmentationList :=
  if m.use_diff_bs_size && m.is_train then
    match ds with
    | some i =>
        match m.dataset_augs.get? i with
        | some p => .ok p
        | none => .error .indexError
    | none => .error .keyError
  else .ok m.augmentations

/-- The concrete action of a sampled transform on an image (model). -/
def transfImage (t : TransformList) (im : Image) : Image :=
  { im with pix := im.pix + t }

/-- The input to augmentation: image plus optional semantic mask. -/
structure AugInput where
  image : Image
  sem_seg : Option Image

/-- Applying a pipeline to an `AugInput` (line 113/115): yields the sampled
concrete transform (the pipeline's tag in this model) and transforms the
image and the mask in place. -/
def applyAugmentationList (p : AugmentationList) (inp : AugInput) :
    TransformList × AugInput :=
  (p.id, { image := transfImage p.id inp.image,
           sem_seg := inp.sem_seg.map (transfImage p.id) })

/-- The concrete action of a sampled transform on a box (model). -/
def applyBoxT (t : TransformList) (b : Box) : Box :=
  ⟨b.x0 + t, b.y0 + t, b.x1 + t, b.y1 + t⟩

/-- The concrete action of a sampled transform on a mask (model). -/
def applyMaskT (t : TransformList) (mk : Mask) : Mask :=
  mk.map (fun p => (p.1 + t, p.2 + t))

/-- The concrete action of a sampled transform on keypoints (model). -/
def applyKptT (t : TransformList) (k : Nat) : Nat :=
  k + t

/-- Lines 127-131, `utils.transform_proposals` (external, modelled): remap
the precomputed proposal boxes through the transform, truncate to top-k,
store them under `proposals` and drop the raw key; KeyError when the
configured proposals are missing from the record. -/
def transform_proposals (d : DatasetDict) (tl : TransformList) (k : Nat) :
    Except Err DatasetDict :=
  match d.proposal_boxes with
  | some bs =>
      .ok { d with proposal_boxes := none,
                   proposals := some ((bs.map (applyBoxT tl)).take k) }
  | none => .error .keyError

/-- Sequencing of fallible steps (exception propagation). -/
def ebind (x : Except Err α) (f : α → Except Err β) : Except Err β :=
  match x with
  | .error e => .error e
  | .ok a => f a

/-- Line 123: store the transformed semantic mask when present. -/
def setSemSeg (d : DatasetDict) (s : Option Image) : DatasetDict :=
  match s with
  | some s0 => { d with sem_seg := some s0 }
  | none => d

/-- Lines 127-131: remap precomputed proposals only when top-k filtering is
configured. -/
def proposalStage (m : Mapper) (d : DatasetDict) (tl : TransformList) :
    Except Err DatasetDict :=
  match m.proposal_topk with
  | some k => transform_proposals d tl k
  | none => .ok d

/-- Lines 85-131 of `__call__`: everything up to (and including) proposal
remapping — image resolution, size check, semantic-mask pop, debug forcing,
the `not_full_labeled` computation, pipeline selection and application,
image/mask tensor assembly. Returns the working record, the sampled
transform, and the augmented image shape (h, w). -/
def preAnnStage (w : World) (m : Mapper) (d0 : DatasetDict) :
    Except Err (DatasetDict × TransformList × Nat × Nat) :=
  ebind (loadOrigImage w m d0) fun ori =>
  ebind (check_image_size d0 ori) fun d1 =>
  let s2 := popSemSeg w d1
  let d3 := debugForce m s2.2
  ebind (notFullLabeled m d3) fun _nfl =>
  ebind (selectedAugs m d3.dataset_source) fun p =>
  let res := applyAugmentationList p ⟨ori, s2.1⟩
  let d5 := setSemSeg { d3 with image := some res.2.image } res.2.sem_seg
  ebind (proposalStage m d5 res.1) fun d6 =>
  .ok (d6, res.1, res.2.image.h, res.2.image.w)

/-- Lines 141-145: drop the segmentation when instance masks are not
consumed and the keypoints when keypoints are not consumed. -/
def prepAnno (m : Mapper) (a : Annotation) : Annotation :=
  let a1 := if m.use_instance_mask then a else { a with segmentation := none }
  if m.use_keypoint then a1 else { a1 with keypoints := none }

/-- Model of `utils.transform_instance_annotations` (external): remap the
box, the mask and the keypoints of one annotation through the transform. -/
def transform_instance_annotations (tl : TransformList) (a : Annotation) :
    Annotation :=
  { a with bbox := applyBoxT tl a.bbox,
           segmentation := a.segmentation.map (applyMaskT tl),
           keypoints := a.keypoints.map (applyKptT tl) }

/-- Lines 148-155: transform every (prepared) annotation, pair it with its
`iscrowd` flag (default 0), and keep the transformed annotations whose flag
is 0. -/
def keptAnnos (m : Mapper) (tl : TransformList) (annos : List Annotation) :
    List Annotation :=
  ((((annos.map (prepAnno m)).map
      (fun obj => (transform_instance_annotations tl obj, obj.iscrowd.getD 0))).filter
      (fun pr => pr.2 == 0)).map (fun pr => pr.1))

/-- Model of `utils.annotations_to_instances` (external): parallel columns
of boxes and classes; masks (resp. keypoints) are present iff the
annotation list is non-empty and its first element carries a segmentation
(resp. keypoints), raising KeyError when a later annotation misses one. -/
def annotations_to_instances (annos : List Annotation) : Except Err Instances :=
  let boxes := annos.map (fun a => a.bbox)
  let classes := annos.map (fun a => a.category_id)
  let masksE : Except Err (Option (List Mask)) :=
    match annos with
    | [] => .ok none
    | a :: _ =>
      if a.segmentation.isSome then
        match annos.mapM (fun x => x.segmentation) with
        | some ms => .ok (some ms)
        | none => .error .keyError
      else .ok none
  let kptsE : Except Err (Option (List Nat)) :=
    match annos with
    | [] => .ok none
    | a :: _ =>
      if a.keypoints.isSome then
        match annos.mapM (fun x => x.keypoints) with
        | some ks => .ok (some ks)
        | none => .error .keyError
      else .ok none
  match masksE with
  | .error e => .error e
  | .ok masks =>
    match kptsE with
    | .error e => .error e
    | .ok kpts =>
      .ok { gt_boxes := boxes, gt_classes := classes,
            gt_masks := masks, gt_keypoints := kpts }

/-- Model of `BitMasks.get_bounding_boxes` on one mask (external): the
tight bounding box of the mask's pixels (zero box for an empty mask). -/
def maskTightBox (mk : Mask) : Box :=
  match mk with
  | [] => ⟨0, 0, 0, 0⟩
  | p :: ps =>
    ⟨((p :: ps).map Prod.fst).foldl Nat.min p.1,
     ((p :: ps).map Prod.snd).foldl Nat.min p.2,
     ((p :: ps).map Prod.fst).foldl Nat.max p.1 + 1,
     ((p :: ps).map Prod.snd).foldl Nat.max p.2 + 1⟩

/-- Lines 161-162: overwrite the instance boxes with the tight bounding
boxes of the instance masks; `instances.gt_masks` raises `AttributeError`
when the masks field was never set. -/
def recomputeBoxes (ins : Instances) : Except Err Instances :=
  match ins.gt_masks with
  | some ms => .ok { ins with gt_boxes := ms.map maskTightBox }
  | none => .error .attributeError

/-- A box is non-degenerate (positive width and height). -/
def boxNonempty (b : Box) : Bool :=
  decide (b.x0 < b.x1 ∧ b.y0 < b.y1)

/-- Keep the elements of a column whose index satisfies `keep`. -/
def filterIdx (keep : Nat → Bool) (xs : List α) : List α :=
  ((List.range xs.length).filter keep).filterMap (fun i => xs.get? i)

/-- Which instance indices survive `utils.filter_empty_instances`: the box
must be non-degenerate and, when masks are present, the mask non-empty. -/
def keepIdx (ins : Instances) (i : Nat) : Bool :=
  (match ins.gt_boxes.get? i with
   | some b => boxNonempty b
   | none => false) &&
  (match ins.gt_masks with
   | some ms => ((ms.get? i).getD []) != []
   | none => true)

/-- Model of `utils.filter_empty_instances` (external): filter every
parallel column by the surviving indices. -/
def filter_empty_instances (ins : Instances) : Instances :=
  { gt_boxes := filterIdx (keepIdx ins) ins.gt_boxes,
    gt_classes := filterIdx (keepIdx ins) ins.gt_classes,
    gt_masks := ins.gt_masks.map (filterIdx (keepIdx ins)),
    gt_keypoints := ins.gt_keypoints.map (filterIdx (keepIdx ins)) }

/-- Lines 139-163: the training-mode annotation block. When the record has
annotations: prepare them, transform them, drop the crowd ones, build the
instance collection, optionally recompute boxes from masks, filter empty
instances, pop the raw annotations. -/
def trainAnnotationStage (m : Mapper) (tl : TransformList) (d : DatasetDict) :
    Except Err DatasetDict :=
  match d.annotations with
  | none => .ok d
  | some annos =>
    ebind (annotations_to_instances (keptAnnos m tl annos)) fun ins0 =>
    ebind (if m.recompute_boxes then recomputeBoxes ins0 else .ok ins0) fun ins1 =>
    .ok { d with annotations := none,
                 instances := some (filter_empty_instances ins1) }

/-- Insert into a sorted list of integers. -/
def insertI (x : Int) : List Int → List Int
  | [] => [x]
  | y :: ys => if x ≤ y then x :: y :: ys else y :: insertI x ys

/-- Insertion sort on integers. -/
def sortI : List Int → List Int
  | [] => []
  | x :: xs => insertI x (sortI xs)

/-- First-occurrence deduplication. -/
def distinctList (xs : List Int) : List Int :=
  xs.foldl (fun acc x => if acc.contains x then acc else acc ++ [x]) []

/-- Python's `sorted(set(xs))`: the sorted list of distinct values. -/
def sortedSet (xs : List Int) : List Int :=
  sortI (distinctList xs)

/-- Lines 164-168: with `with_ann_type`, default `pos_category_ids` to `[]`
and set `ann_type` from `dataset_ann[dataset_source]` (KeyError without a
`dataset_source`, IndexError when out of range). -/
def annTypeStep (m : Mapper) (d : DatasetDict) : Except Err DatasetDict :=
  if m.with_ann_type then
    match d.dataset_source with
    | some ds =>
        match m.dataset_ann.get? ds with
        | some t =>
            .ok { d with pos_category_ids := some (d.pos_category_ids.getD []),
                         ann_type := some t }
        | none => .error .indexError
    | none => .error .keyError
  else .ok d

/-- Lines 169-173: in debug mode, when `pos_category_ids` is absent or
empty, backfill it as the sorted set of the final instance classes
(KeyError when no `instances` key was produced). -/
def debugPosStep (m : Mapper) (d : DatasetDict) : Except Err DatasetDict :=
  if m.is_debug && (d.pos_category_ids.getD [] == []) then
    match d.instances with
    | some ins =>
        .ok { d with pos_category_ids := some (sortedSet ins.gt_classes) }
    | none => .error .keyError
  else .ok d

/-- Lines 164-173: the label block. -/
def labelStage (m : Mapper) (d : DatasetDict) : Except Err DatasetDict :=
  ebind (annTypeStep m d) (debugPosStep m)

/-- Model of `CustomDatasetMapper.__call__` (lines 81-174). Line 85 deep-copies the
record; the embedding passes the working copy by value. After the
pre-annotation stage, inference mode pops the raw annotations and the
mask-source key and returns; training mode runs the annotation block and
the label block. -/
def CustomDatasetMapper.call (w : World) (m : Mapper) (d0 : DatasetDict) :
    Except Err DatasetDict :=
  ebind (preAnnStage w m d0) fun r =>
  if m.is_train then
    ebind (trainAnnotationStage m r.2.1 r.1) fun d2 => labelStage m d2
  else
    .ok { r.1 with annotations := none, sem_seg_file_name := none }

/-- A heap of records, for the aliasing reading of line 85: `__call__`
receives a reference to the caller's record, deep-copies it into a fresh
cell, and every subsequent mutation hits the fresh cell only. -/
def callOnHeap (w : World) (m : Mapper) (h : List DatasetDict) (r : Nat) :
    Except Err (List DatasetDict × Nat) :=
  match h.get? r with
  | none => .error .keyError
  | some d =>
    match CustomDatasetMapper.call w m d with
    | .error e => .error e
    | .ok out => .ok (h ++ [out], h.length)

/-! ## Concrete instances -/

/-- A concrete external world for concrete runs. -/
def testWorld : World :=
  { read_image := fun _ _ => ⟨8, 8, 5⟩, read_sem := fun _ => ⟨8, 8, 1⟩ }

/-- A baseline training mapper. -/
def tMap : Mapper :=
  { is_train := true, with_ann_type := false, dataset_ann := [],
    use_diff_bs_size := false, dataset_augs := [], is_debug := false,
    use_tar_dataset := false, augmentations := ⟨1⟩, image_format := "BGR",
    use_instance_mask := true, use_keypoint := false,
    instance_mask_format := "polygon", recompute_boxes := false,
    proposal_topk := none }

/-- A training mapper with per-dataset pipelines. -/
def dMap : Mapper :=
  { tMap with use_diff_bs_size := true, dataset_augs := [⟨3⟩, ⟨4⟩] }

/-- A non-crowd annotation of class 7. -/
def tAnno : Annotation :=
  { bbox := ⟨0, 0, 2, 2⟩, category_id := 7, segmentation := some [(1, 1)],
    keypoints := none, iscrowd := none }

/-- A crowd annotation of class 4. -/
def tCrowd : Annotation :=
  { bbox := ⟨0, 0, 3, 3⟩, category_id := 4, segmentation := some [(2, 2)],
    keypoints := none, iscrowd := some 1 }

/-- A baseline record: one file-backed image, one non-crowd and one crowd
annotation, `dataset_source = 0`. -/
def tDict : DatasetDict :=
  { emptyDict with
    file_name := some "img.jpg",
    annotations := some [tAnno, tCrowd], dataset_source := some 0 }

def c1res : DatasetDict × TransformList × Nat × Nat :=
  (preAnnStage testWorld dMap tDict).toOption.getD (emptyDict, 0, 0, 0)

def c2out : DatasetDict :=
  (CustomDatasetMapper.call testWorld tMap tDict).toOption.getD emptyDict

def iMap : Mapper := { tMap with is_train := false }

def c3d : DatasetDict := { tDict with sem_seg_file_name := some "seg.png" }

def c3out : DatasetDict :=
  (CustomDatasetMapper.call testWorld iMap c3d).toOption.getD emptyDict

def c4args : MapperArgs := { is_train := true }

def c5m : Mapper :=
  { tMap with with_ann_type := true, dataset_ann := ["box"] }

def c5out : DatasetDict :=
  (CustomDatasetMapper.call testWorld c5m tDict).toOption.getD emptyDict

/-- The C5 counterexample configuration: `with_ann_type` and `is_debug`
together. -/
def c5cexM : Mapper :=
  { tMap with
    with_ann_type := true, dataset_ann := ["image"], is_debug := true }

def c5cexOut : DatasetDict :=
  (CustomDatasetMapper.call testWorld c5cexM tDict).toOption.getD emptyDict

def c6m : Mapper := { tMap with is_debug := true }

def c6d : DatasetDict := { tDict with dataset_source := none }

def c6out : DatasetDict :=
  (CustomDatasetMapper.call testWorld c6m c6d).toOption.getD emptyDict

def c7res : List DatasetDict × Nat :=
  (callOnHeap testWorld tMap [tDict] 0).toOption.getD ([], 0)

def c8m : Mapper := { tMap with recompute_boxes := true }

def c8out : DatasetDict :=
  (CustomDatasetMapper.call testWorld c8m tDict).toOption.getD emptyDict

def c9m : Mapper :=
  (CustomDatasetMapper.init c4args).toOption.getD tMap

def c9d : DatasetDict := { emptyDict with tar_index := some 3 }

def c10d : DatasetDict := { emptyDict with file_name := some "img.jpg" }

/-! ## Inversion and preservation lemmas -/

theorem ebind_ok {x : Except Err α} {f : α → Except Err β} {b : β} :
    ebind x f = .ok b ↔ ∃ a, x = .ok a ∧ f a = .ok b := by
  cases x <;> simp [ebind]

@[simp] theorem popSemSeg_instances (w : World) (d : DatasetDict) :
    (popSemSeg w d).2.instances = d.instances := by
  unfold popSemSeg; split <;> rfl

@[simp] theorem popSemSeg_annotations (w : World) (d : DatasetDict) :
    (popSemSeg w d).2.annotations = d.annotations := by
  unfold popSemSeg; split <;> rfl

@[simp] theorem popSemSeg_pos (w : World) (d : DatasetDict) :
    (popSemSeg w d).2.pos_category_ids = d.pos_category_ids := by
  unfold popSemSeg; split <;> rfl

@[simp] theorem popSemSeg_ds (w : World) (d : DatasetDict) :
    (popSemSeg w d).2.dataset_source = d.dataset_source := by
  unfold popSemSeg; split <;> rfl

@[simp] theorem popSemSeg_file (w : World) (d : DatasetDict) :
    (popSemSeg w d).2.sem_seg_file_name = none := by
  unfold popSemSeg; split
  · rfl
  · next heq => rw [heq]

@[simp] theorem debugForce_instances (m : Mapper) (d : DatasetDict) :
    (debugForce m d).instances = d.instances := by
  unfold debugForce; split <;> rfl

@[simp] theorem debugForce_annotations (m : Mapper) (d : DatasetDict) :
    (debugForce m d).annotations = d.annotations := by
  unfold debugForce; split <;> rfl

@[simp] theorem debugForce_pos (m : Mapper) (d : DatasetDict) :
    (debugForce m d).pos_category_ids = d.pos_category_ids := by
  unfold debugForce; split <;> rfl

@[simp] theorem debugForce_file (m : Mapper) (d : DatasetDict) :
    (debugForce m d).sem_seg_file_name = d.sem_seg_file_name := by
  unfold debugForce; split <;> rfl

theorem debugForce_ds (m : Mapper) (d : DatasetDict) :
    (debugForce m d).dataset_source =
      (if m.is_debug then some 0 else d.dataset_source) := by
  unfold debugForce; split <;> simp_all

@[simp] theorem setSemSeg_instances (d : DatasetDict) (s : Option Image) :
    (setSemSeg d s).instances = d.instances := by
  unfold setSemSeg; split <;> rfl

@[simp] theorem setSemSeg_annotations (d : DatasetDict) (s : Option Image) :
    (setSemSeg d s).annotations = d.annotations := by
  unfold setSemSeg; split <;> rfl

@[simp] theorem setSemSeg_pos (d : DatasetDict) (s : Option Image) :
    (setSemSeg d s).pos_category_ids = d.pos_category_ids := by
  unfold setSemSeg; split <;> rfl

@[simp] theorem setSemSeg_ds (d : DatasetDict) (s : Option Image) :
    (setSemSeg d s).dataset_source = d.dataset_source := by
  unfold setSemSeg; split <;> rfl

@[simp] theorem setSemSeg_file (d : DatasetDict) (s : Option Image) :
    (setSemSeg d s).sem_seg_file_name = d.sem_seg_file_name := by
  unfold setSemSeg; split <;> rfl

@[simp] theorem check_ok_instances {d d1 : DatasetDict} {im : Image}
    (h : check_image_size d im = .ok d1) : d1.instances = d.instances := by
  unfold check_image_size at h
  repeat' split at h
  all_goals first | (cases h; rfl) | exact absurd h (by simp)

@[simp] theorem check_ok_annotations {d d1 : DatasetDict} {im : Image}
    (h : check_image_size d im = .ok d1) : d1.annotations = d.annotations := by
  unfold check_image_size at h
  repeat' split at h
  all_goals first | (cases h; rfl) | exact absurd h (by simp)

@[simp] theorem check_ok_pos {d d1 : DatasetDict} {im : Image}
    (h : check_image_size d im = .ok d1) :
    d1.pos_category_ids = d.pos_category_ids := by
  unfold check_image_size at h
  repeat' split at h
  all_goals first | (cases h; rfl) | exact absurd h (by simp)

@[simp] theorem check_ok_ds {d d1 : DatasetDict} {im : Image}
    (h : check_image_size d im = .ok d1) :
    d1.dataset_source = d.dataset_source := by
  unfold check_image_size at h
  repeat' split at h
  all_goals first | (cases h; rfl) | exact absurd h (by simp)

@[simp] theorem check_ok_file {d d1 : DatasetDict} {im : Image}
    (h : check_image_size d im = .ok d1) :
    d1.sem_seg_file_name = d.sem_seg_file_name := by
  unfold check_image_size at h
  repeat' split at h
  all_goals first | (cases h; rfl) | exact absurd h (by simp)

@[simp] theorem proposalStage_ok_instances {m : Mapper} {d d6 : DatasetDict}
    {tl : TransformList} (h : proposalStage m d tl = .ok d6) :
    d6.instances = d.instances := by
  unfold proposalStage transform_proposals at h
  repeat' split at h
  all_goals first | (cases h; rfl) | exact absurd h (by simp)

@[simp] theorem proposalStage_ok_annotations {m : Mapper} {d d6 : DatasetDict}
    {tl : TransformList} (h : proposalStage m d tl = .ok d6) :
    d6.annotations = d.annotations := by
  unfold proposalStage transform_proposals at h
  repeat' split at h
  all_goals first | (cases h; rfl) | exact absurd h (by simp)

@[simp] theorem proposalStage_ok_pos {m : Mapper} {d d6 : DatasetDict}
    {tl : TransformList} (h : proposalStage m d tl = .ok d6) :
    d6.pos_category_ids = d.pos_category_ids := by
  unfold proposalStage transform_proposals at h
  repeat' split at h
  all_goals first | (cases h; rfl) | exact absurd h (by simp)

@[simp] theorem proposalStage_ok_ds {m : Mapper} {d d6 : DatasetDict}
    {tl : TransformList} (h : proposalStage m d tl = .ok d6) :
    d6.dataset_source = d.dataset_source := by
  unfold proposalStage transform_proposals at h
  repeat' split at h
  all_goals first | (cases h; rfl) | exact absurd h (by simp)

@[simp] theorem proposalStage_ok_file {m : Mapper} {d d6 : DatasetDict}
    {tl : TransformList} (h : proposalStage m d tl = .ok d6) :
    d6.sem_seg_file_name = d.sem_seg_file_name := by
  unfold proposalStage transform_proposals at h
  repeat' split at h
  all_goals first | (cases h; rfl) | exact absurd h (by simp)

theorem preAnn_facts {w : World} {m : Mapper} {d0 d' : DatasetDict}
    {tl : TransformList} {hh ww : Nat}
    (hok : preAnnStage w m d0 = .ok (d', tl, hh, ww)) :
    d'.instances = d0.instances ∧ d'.annotations = d0.annotations ∧
    d'.pos_category_ids = d0.pos_category_ids ∧
    d'.sem_seg_file_name = none ∧
    d'.dataset_source = (if m.is_debug then some 0 else d0.dataset_source) ∧
    ∃ p, selectedAugs m d'.dataset_source = .ok p ∧ tl = p.id := by
  unfold preAnnStage at hok
  simp only [ebind_ok] at hok
  obtain ⟨ori, hL, d1, hC, nfl, hN, p, hS, d6, hP, hout⟩ := hok
  simp only [Except.ok.injEq, Prod.mk.injEq] at hout
  obtain ⟨rfl, rfl, rfl, rfl⟩ := hout
  refine ⟨?_, ?_, ?_, ?_, ?_, p, ?_, ?_⟩
  · simp [proposalStage_ok_instances hP, check_ok_instances hC]
  · simp [proposalStage_ok_annotations hP, check_ok_annotations hC]
  · simp [proposalStage_ok_pos hP, check_ok_pos hC]
  · simp [proposalStage_ok_file hP]
  · rw [proposalStage_ok_ds hP]
    simp [debugForce_ds, check_ok_ds hC]
  · rw [proposalStage_ok_ds hP]
    simpa using hS
  · rfl

theorem call_train_inv {w : World} {m : Mapper} {d0 out : DatasetDict}
    (ht : m.is_train = true)
    (hok : CustomDatasetMapper.call w m d0 = .ok out) :
    ∃ d' tl hh ww d2, preAnnStage w m d0 = .ok (d', tl, hh, ww) ∧
      trainAnnotationStage m tl d' = .ok d2 ∧ labelStage m d2 = .ok out := by
  unfold CustomDatasetMapper.call at hok
  simp only [ebind_ok] at hok
  obtain ⟨⟨d', tl, hh, ww⟩, hpre, hrest⟩ := hok
  simp only [ht, if_true] at hrest
  simp only [ebind_ok] at hrest
  obtain ⟨d2, htr, hlab⟩ := hrest
  exact ⟨d', tl, hh, ww, d2, hpre, htr, hlab⟩

theorem call_infer_inv {w : World} {m : Mapper} {d0 out : DatasetDict}
    (ht : m.is_train = false)
    (hok : CustomDatasetMapper.call w m d0 = .ok out) :
    ∃ d' tl hh ww, preAnnStage w m d0 = .ok (d', tl, hh, ww) ∧
      out = { d' with annotations := none, sem_seg_file_name := none } := by
  unfold CustomDatasetMapper.call at hok
  simp only [ebind_ok] at hok
  obtain ⟨⟨d', tl, hh, ww⟩, hpre, hrest⟩ := hok
  simp only [ht, Bool.false_eq_true, if_false] at hrest
  exact ⟨d', tl, hh, ww, hpre, by
    cases hrest
    rfl⟩

@[simp] theorem annType_ok_instances {m : Mapper} {d d1 : DatasetDict}
    (h : annTypeStep m d = .ok d1) : d1.instances = d.instances := by
  unfold annTypeStep at h
  repeat' split at h
  all_goals first | (cases h; rfl) | exact absurd h (by simp)

@[simp] theorem annType_ok_ds {m : Mapper} {d d1 : DatasetDict}
    (h : annTypeStep m d = .ok d1) : d1.dataset_source = d.dataset_source := by
  unfold annTypeStep at h
  repeat' split at h
  all_goals first | (cases h; rfl) | exact absurd h (by simp)

@[simp] theorem annType_ok_annotations {m : Mapper} {d d1 : DatasetDict}
    (h : annTypeStep m d = .ok d1) : d1.annotations = d.annotations := by
  unfold annTypeStep at h
  repeat' split at h
  all_goals first | (cases h; rfl) | exact absurd h (by simp)

@[simp] theorem debugPos_ok_instances {m : Mapper} {d d1 : DatasetDict}
    (h : debugPosStep m d = .ok d1) : d1.instances = d.instances := by
  unfold debugPosStep at h
  repeat' split at h
  all_goals first | (cases h; rfl) | exact absurd h (by simp)

@[simp] theorem debugPos_ok_ds {m : Mapper} {d d1 : DatasetDict}
    (h : debugPosStep m d = .ok d1) : d1.dataset_source = d.dataset_source := by
  unfold debugPosStep at h
  repeat' split at h
  all_goals first | (cases h; rfl) | exact absurd h (by simp)

@[simp] theorem debugPos_ok_annotations {m : Mapper} {d d1 : DatasetDict}
    (h : debugPosStep m d = .ok d1) : d1.annotations = d.annotations := by
  unfold debugPosStep at h
  repeat' split at h
  all_goals first | (cases h; rfl) | exact absurd h (by simp)

theorem label_ok_instances {m : Mapper} {d out : DatasetDict}
    (h : labelStage m d = .ok out) : out.instances = d.instances := by
  unfold labelStage at h
  simp only [ebind_ok] at h
  obtain ⟨d1, hA, hB⟩ := h
  rw [debugPos_ok_instances hB, annType_ok_instances hA]

theorem label_ok_ds {m : Mapper} {d out : DatasetDict}
    (h : labelStage m d = .ok out) : out.dataset_source = d.dataset_source := by
  unfold labelStage at h
  simp only [ebind_ok] at h
  obtain ⟨d1, hA, hB⟩ := h
  rw [debugPos_ok_ds hB, annType_ok_ds hA]

theorem label_ok_annotations {m : Mapper} {d out : DatasetDict}
    (h : labelStage m d = .ok out) : out.annotations = d.annotations := by
  unfold labelStage at h
  simp only [ebind_ok] at h
  obtain ⟨d1, hA, hB⟩ := h
  rw [debugPos_ok_annotations hB, annType_ok_annotations hA]

theorem trainStage_none {m : Mapper} {tl : TransformList} {d : DatasetDict}
    (ha : d.annotations = none) : trainAnnotationStage m tl d = .ok d := by
  unfold trainAnnotationStage
  rw [ha]

theorem trainStage_inv {m : Mapper} {tl : TransformList} {d d2 : DatasetDict}
    {annos : List Annotation} (ha : d.annotations = some annos)
    (h : trainAnnotationStage m tl d = .ok d2) :
    ∃ ins0 ins1, annotations_to_instances (keptAnnos m tl annos) = .ok ins0 ∧
      ((m.recompute_boxes = true ∧ recomputeBoxes ins0 = .ok ins1) ∨
       (m.recompute_boxes = false ∧ ins1 = ins0)) ∧
      d2 = { d with annotations := none,
                    instances := some (filter_empty_instances ins1) } := by
  unfold trainAnnotationStage at h
  rw [ha] at h
  simp only [ebind_ok] at h
  obtain ⟨ins0, hb, ins1, hr, hd2⟩ := h
  refine ⟨ins0, ins1, hb, ?_, by cases hd2; rfl⟩
  cases hrb : m.recompute_boxes with
  | true =>
      rw [hrb, if_pos rfl] at hr
      exact Or.inl ⟨rfl, hr⟩
  | false =>
      rw [hrb, if_neg (by simp)] at hr
      cases hr
      exact Or.inr ⟨rfl, rfl⟩

theorem prepAnno_iscrowd (m : Mapper) (a : Annotation) :
    (prepAnno m a).iscrowd = a.iscrowd := by
  unfold prepAnno
  repeat' split
  all_goals rfl

theorem keptAnnos_eq (m : Mapper) (tl : TransformList)
    (annos : List Annotation) :
    keptAnnos m tl annos =
      (annos.filter (fun a => a.iscrowd.getD 0 == 0)).map
        (fun a => transform_instance_annotations tl (prepAnno m a)) := by
  induction annos with
  | nil => rfl
  | cons a rest ih =>
      simp only [keptAnnos] at ih ⊢
      simp only [List.map_cons, List.filter_cons, prepAnno_iscrowd,
        List.map_map] at ih ⊢
      cases hcr : (a.iscrowd.getD 0 == 0) <;> simp [hcr, ih]

theorem filterIdx_map (keep : Nat → Bool) (f : α → β) (xs : List α) :
    filterIdx keep (xs.map f) = (filterIdx keep xs).map f := by
  unfold filterIdx
  simp only [List.length_map, List.get?_map, List.map_filterMap]

@[simp] theorem annType_ok_posE {m : Mapper} {d d1 : DatasetDict}
    (h : annTypeStep m d = .ok d1) :
    d1.pos_category_ids.getD [] = d.pos_category_ids.getD [] := by
  unfold annTypeStep at h
  repeat' split at h
  all_goals first | (cases h; simp) | exact absurd h (by simp)

theorem labelStage_debug {m : Mapper} {d out : DatasetDict}
    (hdbg : m.is_debug = true) (hpos : d.pos_category_ids.getD [] = [])
    (h : labelStage m d = .ok out) :
    ∃ ins, d.instances = some ins ∧
      out.pos_category_ids = some (sortedSet ins.gt_classes) := by
  unfold labelStage at h
  simp only [ebind_ok] at h
  obtain ⟨d1, hA, hB⟩ := h
  have h1pos : d1.pos_category_ids.getD [] = [] := by
    rw [annType_ok_posE hA, hpos]
  have h1ins : d1.instances = d.instances := annType_ok_instances hA
  unfold debugPosStep at hB
  rw [hdbg, h1pos] at hB
  simp only [beq_self_eq_true, Bool.and_self, if_true] at hB
  split at hB
  next ins hins =>
    simp only [Except.ok.injEq] at hB
    subst hB
    exact ⟨ins, by rw [← h1ins, hins], rfl⟩
  next hins => exact absurd hB (by simp)

theorem labelStage_annType {m : Mapper} {d out : DatasetDict} {ds : Nat}
    (hw : m.with_ann_type = true) (hdbg : m.is_debug = false)
    (hds : d.dataset_source = some ds)
    (h : labelStage m d = .ok out) :
    ∃ t, m.dataset_ann.get? ds = some t ∧ out.ann_type = some t ∧
      out.pos_category_ids = some (d.pos_category_ids.getD []) := by
  unfold labelStage at h
  simp only [ebind_ok] at h
  obtain ⟨d1, hA, hB⟩ := h
  unfold annTypeStep at hA
  rw [hw, if_pos rfl, hds] at hA
  split at hA
  next ds2 hds2 =>
    cases hds2
    split at hA
    next t ht2 =>
      simp only [Except.ok.injEq] at hA
      subst hA
      unfold debugPosStep at hB
      rw [hdbg] at hB
      simp only [Bool.false_and, Bool.false_eq_true, if_false,
        Except.ok.injEq] at hB
      subst hB
      exact ⟨t, ht2, rfl, rfl⟩
    next ht2 => exact absurd hA (by simp)
  next hds2 => exact Option.noConfusion hds2

theorem trainStage_ok_ds {m : Mapper} {tl : TransformList}
    {d d2 : DatasetDict} (h : trainAnnotationStage m tl d = .ok d2) :
    d2.dataset_source = d.dataset_source := by
  unfold trainAnnotationStage at h
  split at h
  next ha => cases h; rfl
  next annos ha =>
    simp only [ebind_ok] at h
    obtain ⟨ins0, hb, ins1, hr, hd2⟩ := h
    cases hd2
    rfl

theorem trainStage_ok_pos {m : Mapper} {tl : TransformList}
    {d d2 : DatasetDict} (h : trainAnnotationStage m tl d = .ok d2) :
    d2.pos_category_ids = d.pos_category_ids := by
  unfold trainAnnotationStage at h
  split at h
  next ha => cases h; rfl
  next annos ha =>
    simp only [ebind_ok] at h
    obtain ⟨ins0, hb, ins1, hr, hd2⟩ := h
    cases hd2
    rfl

theorem preAnn_dann {w : World} {m : Mapper} {l : List String}
    {d0 : DatasetDict} {r r2 : DatasetDict × TransformList × Nat × Nat}
    (h1 : preAnnStage w m d0 = .ok r)
    (h2 : preAnnStage w { m with dataset_ann := l } d0 = .ok r2) :
    r2 = r := by
  unfold preAnnStage at h1 h2
  simp only [ebind_ok] at h1 h2
  obtain ⟨ori, hL, d1, hC, nfl, hN, p, hS, d6, hP, hout⟩ := h1
  obtain ⟨ori2, hL2, d12, hC2, nfl2, hN2, p2, hS2, d62, hP2, hout2⟩ := h2
  have hL2A : loadOrigImage w m d0 = .ok ori2 := hL2
  have e1 : (Except.ok ori2 : Except Err Image) = .ok ori :=
    hL2A.symm.trans hL
  cases e1
  have e2 : (Except.ok d12 : Except Err DatasetDict) = .ok d1 :=
    hC2.symm.trans hC
  cases e2
  have hS2A : selectedAugs m
      ((debugForce m (popSemSeg w d1).2).dataset_source) = .ok p2 := hS2
  have e3 : (Except.ok p2 : Except Err AugmentationList) = .ok p :=
    hS2A.symm.trans hS
  cases e3
  have hP2A : proposalStage m
      (setSemSeg { (debugForce m (popSemSeg w d1).2) with
          image := some (applyAugmentationList p
            ⟨ori, (popSemSeg w d1).1⟩).2.image }
        (applyAugmentationList p ⟨ori, (popSemSeg w d1).1⟩).2.sem_seg)
      (applyAugmentationList p ⟨ori, (popSemSeg w d1).1⟩).1 = .ok d62 := hP2
  have e4 : (Except.ok d62 : Except Err DatasetDict) = .ok d6 :=
    hP2A.symm.trans hP
  cases e4
  rw [hout] at hout2
  exact (Except.ok.inj hout2).symm

theorem init_ok_of (a : MapperArgs) (h1 : a.use_tar_dataset = false)
    (h2 : (a.recompute_boxes && !a.use_instance_mask) = false) :
    ∃ mp, CustomDatasetMapper.init a = .ok mp := by
  unfold CustomDatasetMapper.init
  rw [h1, h2]
  simp only [Bool.false_eq_true, if_false]
  exact ⟨_, rfl⟩

theorem notFullLabeled_nods {m : Mapper} {d : DatasetDict}
    (h : d.dataset_source = none) : notFullLabeled m d = .ok false := by
  unfold notFullLabeled
  rw [h]

theorem selectedAugs_nods {m : Mapper}
    (hdiff : m.use_diff_bs_size = true) (htrain : m.is_train = true) :
    selectedAugs m none = .error .keyError := by
  unfold selectedAugs
  rw [hdiff, htrain, Bool.and_self, if_pos rfl]

/-! ## Claims -/

/-- C1: for every call, when `use_diff_bs_size` is false or the mapper is
not training, the sampled transform comes from the single shared pipeline
`self.augmentations`, regardless of the record's `dataset_source`; when
`use_diff_bs_size` is true and the mapper is training, it comes from
exactly `dataset_augs[dataset_source]` (with `dataset_source` read off the
working record). -/
theorem claim_C1 {w : World} {m : Mapper} {d0 d' : DatasetDict}
    {tl : TransformList} {hh ww : Nat}
    (hok : preAnnStage w m d0 = .ok (d', tl, hh, ww)) :
    (¬(m.use_diff_bs_size = true ∧ m.is_train = true) →
      tl = m.augmentations.id) ∧
    (m.use_diff_bs_size = true → m.is_train = true →
      ∃ i p, d'.dataset_source = some i ∧ m.dataset_augs.get? i = some p ∧
        tl = p.id) := by
  obtain ⟨-, -, -, -, -, p, hsel, htl⟩ := preAnn_facts hok
  constructor
  · intro hnot
    have hcond : (m.use_diff_bs_size && m.is_train) = false := by
      cases hu : m.use_diff_bs_size <;> cases hi : m.is_train <;> simp_all
    unfold selectedAugs at hsel
    rw [hcond] at hsel
    simp only [Bool.false_eq_true, if_false, Except.ok.injEq] at hsel
    rw [htl, ← hsel]
  · intro hu hi
    unfold selectedAugs at hsel
    rw [hu, hi, Bool.and_self, if_pos rfl] at hsel
    split at hsel
    next i hdseq =>
      split at hsel
      next q hgeq =>
        simp only [Except.ok.injEq] at hsel
        subst hsel
        exact ⟨i, q, hdseq, hgeq, htl⟩
      next hgeq => exact absurd hsel (by simp)
    next hdseq => exact absurd hsel (by simp)

/-- C3: inference-mode calls (on schema-conforming records, which carry no
`instances` key) return a record with no `instances`, no `annotations` and
no `sem_seg_file_name` key, even when the input had `annotations` and
`sem_seg_file_name`; the annotation block is never reached. -/
theorem claim_C3 {w : World} {m : Mapper} {d0 out : DatasetDict}
    (ht : m.is_train = false) (hi : d0.instances = none)
    (hok : CustomDatasetMapper.call w m d0 = .ok out) :
    out.instances = none ∧ out.annotations = none ∧
    out.sem_seg_file_name = none := by
  obtain ⟨d', tl, hh, ww, hpre, hout⟩ := call_infer_inv ht hok
  obtain ⟨hins, -, -, -, -, -⟩ := preAnn_facts hpre
  subst hout
  refine ⟨?_, rfl, rfl⟩
  simpa [hi] using hins

/-- C4: construction with `use_tar_dataset = true` fails immediately with
`NotImplementedError` (before the base initializer runs), so no sample can
ever be produced by such an instance; with `use_tar_dataset = false` (and a
consistent base configuration) construction succeeds. -/
theorem claim_C4 (a : MapperArgs)
    (hsafe : a.recompute_boxes = true → a.use_instance_mask = true) :
    CustomDatasetMapper.init { a with use_tar_dataset := true } =
      .error .notImplementedError ∧
    ∃ mp, CustomDatasetMapper.init { a with use_tar_dataset := false } =
      .ok mp := by
  constructor
  · rfl
  · apply init_ok_of
    · rfl
    · cases hrb : a.recompute_boxes with
      | false => simp [hrb]
      | true => simp [hrb, hsafe hrb]

/-- C9: every call on a record without a `file_name` key fails with
`AttributeError`: the archive branch dereferences `self.tar_dataset`, which
no constructible mapper ever initializes (construction rejects
`use_tar_dataset`); no output sample is produced from a record carrying
only a `tar_index` image source. -/
theorem claim_C9 {a : MapperArgs} {m : Mapper} {w : World} {d0 : DatasetDict}
    (hinit : CustomDatasetMapper.init a = .ok m)
    (hf : d0.file_name = none) :
    CustomDatasetMapper.call w m d0 = .error .attributeError := by
  unfold CustomDatasetMapper.call preAnnStage loadOrigImage
  rw [hf]
  rfl

/-- C10: when `use_diff_bs_size` is true and the mapper trains, a call on a
record without a `dataset_source` key fails with the lookup error
(KeyError) at augmentation-pipeline selection — unless `is_debug` is set,
which forces `dataset_source = 0` first, so the selection lookup never
raises KeyError. -/
theorem claim_C10 {w : World} {m : Mapper} {d0 : DatasetDict} {f : String}
    (hdiff : m.use_diff_bs_size = true) (htrain : m.is_train = true)
    (hds : d0.dataset_source = none) :
    (m.is_debug = false → d0.file_name = some f → d0.width = none →
      d0.height = none →
      CustomDatasetMapper.call w m d0 = .error .keyError) ∧
    (m.is_debug = true → selectedAugs m (some 0) ≠ .error .keyError) := by
  constructor
  · intro hdbg hf hw hh
    have him : loadOrigImage w m d0 = .ok (w.read_image f m.image_format) := by
      unfold loadOrigImage
      rw [hf]
    have hck : check_image_size d0 (w.read_image f m.image_format) =
        .ok { d0 with width := some (w.read_image f m.image_format).w,
                      height := some (w.read_image f m.image_format).h } := by
      unfold check_image_size
      rw [hw, hh]
    have hdsX : (debugForce m (popSemSeg w
        { d0 with width := some (w.read_image f m.image_format).w,
                  height := some (w.read_image f m.image_format).h }).2).dataset_source =
        none := by
      rw [debugForce_ds, hdbg]
      simp [hds]
    unfold CustomDatasetMapper.call preAnnStage
    rw [him]
    simp only [ebind]
    rw [hck]
    simp only [ebind]
    rw [notFullLabeled_nods hdsX]
    simp only [ebind]
    rw [hdsX, selectedAugs_nods hdiff htrain]
  · intro hdbg hcon
    unfold selectedAugs at hcon
    rw [hdiff, htrain, Bool.and_self, if_pos rfl] at hcon
    split at hcon
    next i hieq =>
      split at hcon
      next q hq => exact Except.noConfusion hcon
      next hq => exact Err.noConfusion (Except.error.inj hcon)
    next hieq => exact Option.noConfusion hieq

/-- C7: the caller's record is never mutated: the call deep-copies the
record into a fresh cell, every mutation hits the copy, and the output is a
new record; every pre-existing heap cell, in particular the input one, is
unchanged after the call. -/
theorem claim_C7 {w : World} {m : Mapper} {h : List DatasetDict} {r : Nat}
    {h2 : List DatasetDict} {r2 : Nat}
    (hok : callOnHeap w m h r = .ok (h2, r2)) :
    (∀ i, i < h.length → h2.get? i = h.get? i) ∧
    r2 = h.length ∧ r2 ≠ r ∧
    ∃ d out, h.get? r = some d ∧
      CustomDatasetMapper.call w m d = .ok out ∧ h2.get? r2 = some out := by
  unfold callOnHeap at hok
  split at hok
  next hg => exact absurd hok (by simp)
  next d hg =>
    split at hok
    next e hc => exact absurd hok (by simp)
    next out hc =>
      simp only [Except.ok.injEq, Prod.mk.injEq] at hok
      obtain ⟨rfl, rfl⟩ := hok
      have hlt : r < h.length := by
        cases hlt' : Nat.decLt r h.length with
        | isTrue hl => exact hl
        | isFalse hl =>
            rw [List.get?_eq_none.mpr (Nat.le_of_not_lt hl)] at hg
            exact absurd hg (by simp)
      refine ⟨?_, rfl, (Nat.ne_of_lt hlt).symm, d, out, hg, hc, ?_⟩
      · intro i hi
        exact List.get?_append hi
      · exact List.get?_concat_length h out

/-- C2: in training mode, on a record with annotations, the instance
collection fed to the builder consists of exactly the transformed non-crowd
annotations (`iscrowd` 0 or absent), in order — crowd annotations
(`iscrowd = 1`) are transformed too but never reach the builder — and the
output's instances are the built collection after the optional box
recomputation and empty-instance filtering. -/
theorem claim_C2 {w : World} {m : Mapper} {d0 out : DatasetDict}
    {annos : List Annotation}
    (ht : m.is_train = true) (ha : d0.annotations = some annos)
    (hok : CustomDatasetMapper.call w m d0 = .ok out) :
    ∃ d' tl hh ww ins0 ins1,
      preAnnStage w m d0 = .ok (d', tl, hh, ww) ∧
      keptAnnos m tl annos =
        (annos.filter (fun a => a.iscrowd.getD 0 == 0)).map
          (fun a => transform_instance_annotations tl (prepAnno m a)) ∧
      annotations_to_instances (keptAnnos m tl annos) = .ok ins0 ∧
      ((m.recompute_boxes = true ∧ recomputeBoxes ins0 = .ok ins1) ∨
       (m.recompute_boxes = false ∧ ins1 = ins0)) ∧
      out.instances = some (filter_empty_instances ins1) := by
  obtain ⟨d', tl, hh, ww, d2, hpre, htr, hlab⟩ := call_train_inv ht hok
  obtain ⟨-, hann, -, -, -, -⟩ := preAnn_facts hpre
  rw [ha] at hann
  obtain ⟨ins0, ins1, hb, hrc, hd2⟩ := trainStage_inv hann htr
  refine ⟨d', tl, hh, ww, ins0, ins1, hpre, keptAnnos_eq m tl annos, hb,
    hrc, ?_⟩
  rw [label_ok_instances hlab, hd2]

/-- C8: in training mode with `recompute_boxes` set, on a record with
annotations, every surviving instance's box in the output collection equals
the tight bounding box of that instance's final mask (the overwrite runs
before empty-instance filtering). -/
theorem claim_C8 {w : World} {m : Mapper} {d0 out : DatasetDict}
    {annos : List Annotation}
    (ht : m.is_train = true) (hrc : m.recompute_boxes = true)
    (ha : d0.annotations = some annos)
    (hok : CustomDatasetMapper.call w m d0 = .ok out) :
    ∃ ins msks, out.instances = some ins ∧ ins.gt_masks = some msks ∧
      ins.gt_boxes = msks.map maskTightBox := by
  obtain ⟨d', tl, hh, ww, d2, hpre, htr, hlab⟩ := call_train_inv ht hok
  obtain ⟨-, hann, -, -, -, -⟩ := preAnn_facts hpre
  rw [ha] at hann
  obtain ⟨ins0, ins1, hb, hrcc, hd2⟩ := trainStage_inv hann htr
  cases hrcc with
  | inr hfl =>
      rw [hrc] at hfl
      exact absurd hfl.1 (by simp)
  | inl hre =>
    obtain ⟨-, hre⟩ := hre
    unfold recomputeBoxes at hre
    split at hre
    next ms hms =>
      simp only [Except.ok.injEq] at hre
      subst hre
      refine ⟨filter_empty_instances
          { ins0 with gt_boxes := ms.map maskTightBox },
        filterIdx (keepIdx { ins0 with gt_boxes := ms.map maskTightBox }) ms,
        ?_, ?_, ?_⟩
      · rw [label_ok_instances hlab, hd2]
      · unfold filter_empty_instances
        simp [hms]
      · unfold filter_empty_instances
        simp [filterIdx_map]
    next hms => exact absurd hre (by simp)

/-- C6: with `is_debug`, a training call on a record with annotations
forces `dataset_source` to 0 in the output, and when the supplied
`pos_category_ids` is absent or empty, the output's `pos_category_ids` is
the sorted set of distinct classes of the final instance collection. -/
theorem claim_C6 {w : World} {m : Mapper} {d0 out : DatasetDict}
    {annos : List Annotation}
    (ht : m.is_train = true) (hdbg : m.is_debug = true)
    (ha : d0.annotations = some annos)
    (hpos : d0.pos_category_ids = none ∨ d0.pos_category_ids = some [])
    (hok : CustomDatasetMapper.call w m d0 = .ok out) :
    out.dataset_source = some 0 ∧
    ∃ ins, out.instances = some ins ∧
      out.pos_category_ids = some (sortedSet ins.gt_classes) := by
  obtain ⟨d', tl, hh, ww, d2, hpre, htr, hlab⟩ := call_train_inv ht hok
  obtain ⟨-, hann, hposP, -, hdsP, -⟩ := preAnn_facts hpre
  rw [ha] at hann
  have hd2pos : d2.pos_category_ids.getD [] = [] := by
    rw [trainStage_ok_pos htr, hposP]
    cases hpos with
    | inl h => rw [h]; rfl
    | inr h => rw [h]; rfl
  obtain ⟨ins, hinsEq, houtpos⟩ := labelStage_debug hdbg hd2pos hlab
  constructor
  · rw [label_ok_ds hlab, trainStage_ok_ds htr, hdsP]
    simp [hdbg]
  · refine ⟨ins, ?_, houtpos⟩
    rw [label_ok_instances hlab]
    exact hinsEq

/-- C5 (amended: `is_debug` disabled): in training mode with
`with_ann_type`, on a record carrying a `dataset_source`, the output's
`pos_category_ids` equals the input's (or `[]` when absent), the output's
`ann_type` equals `dataset_ann[dataset_source]`, and the output's instance
collection does not depend on `dataset_ann` at all. -/
theorem claim_C5 {w : World} {m : Mapper} {d0 out : DatasetDict} {ds : Nat}
    (ht : m.is_train = true) (hw : m.with_ann_type = true)
    (hdbg : m.is_debug = false) (hds : d0.dataset_source = some ds)
    (hok : CustomDatasetMapper.call w m d0 = .ok out) :
    out.pos_category_ids = some (d0.pos_category_ids.getD []) ∧
    (∃ t, m.dataset_ann.get? ds = some t ∧ out.ann_type = some t) ∧
    (∀ (l : List String) (out2 : DatasetDict),
      CustomDatasetMapper.call w { m with dataset_ann := l } d0 = .ok out2 →
      out2.instances = out.instances) := by
  obtain ⟨d', tl, hh, ww, d2, hpre, htr, hlab⟩ := call_train_inv ht hok
  obtain ⟨-, -, hposP, -, hdsP, -⟩ := preAnn_facts hpre
  have hd2ds : d2.dataset_source = some ds := by
    rw [trainStage_ok_ds htr, hdsP]
    simp [hdbg, hds]
  obtain ⟨t, hgt, hat, hpos2⟩ := labelStage_annType hw hdbg hd2ds hlab
  refine ⟨?_, ⟨t, hgt, hat⟩, ?_⟩
  · rw [hpos2, trainStage_ok_pos htr, hposP]
  · intro l out2 hok2
    have ht2 : ({ m with dataset_ann := l } : Mapper).is_train = true := ht
    obtain ⟨d'2, tl2, hh2, ww2, d22, hpre2, htr2, hlab2⟩ :=
      call_train_inv ht2 hok2
    have hrr := preAnn_dann hpre hpre2
    simp only [Prod.mk.injEq] at hrr
    obtain ⟨rfl, rfl, rfl, rfl⟩ := hrr
    have htr2A : trainAnnotationStage m tl2 d'2 = .ok d22 := htr2
    rw [htr] at htr2A
    cases htr2A
    rw [label_ok_instances hlab2, label_ok_instances hlab]


/-! ## Counterexample for C5 as stated -/

/-- C5 as stated is false on the code: with `is_debug` also set (the claim
quantifies over every configuration with `with_ann_type` and training
mode), a record with a `dataset_source`, no `pos_category_ids` and one
surviving instance of class 7 yields `pos_category_ids = [7]`, not the
claimed empty list. -/
theorem claim_C5_cex :
    c5cexM.is_train = true ∧ c5cexM.with_ann_type = true ∧
    tDict.dataset_source = some 0 ∧ tDict.pos_category_ids = none ∧
    CustomDatasetMapper.call testWorld c5cexM tDict = .ok c5cexOut ∧
    c5cexOut.pos_category_ids = some [7] ∧
    some ([7] : List Int) ≠ some (tDict.pos_category_ids.getD []) :=
  ⟨rfl, rfl, rfl, rfl, by rfl, by rfl, by decide⟩

/-! ## Witnesses -/

theorem claim_C1_witness :
    (¬(dMap.use_diff_bs_size = true ∧ dMap.is_train = true) →
      c1res.2.1 = dMap.augmentations.id) ∧
    (dMap.use_diff_bs_size = true → dMap.is_train = true →
      ∃ i p, c1res.1.dataset_source = some i ∧
        dMap.dataset_augs.get? i = some p ∧ c1res.2.1 = p.id) :=
  @claim_C1 testWorld dMap tDict c1res.1 c1res.2.1 c1res.2.2.1 c1res.2.2.2
    (by rfl)

theorem claim_C2_witness :
    ∃ d' tl hh ww ins0 ins1,
      preAnnStage testWorld tMap tDict = .ok (d', tl, hh, ww) ∧
      keptAnnos tMap tl [tAnno, tCrowd] =
        ([tAnno, tCrowd].filter (fun a => a.iscrowd.getD 0 == 0)).map
          (fun a => transform_instance_annotations tl (prepAnno tMap a)) ∧
      annotations_to_instances (keptAnnos tMap tl [tAnno, tCrowd]) =
        .ok ins0 ∧
      ((tMap.recompute_boxes = true ∧ recomputeBoxes ins0 = .ok ins1) ∨
       (tMap.recompute_boxes = false ∧ ins1 = ins0)) ∧
      c2out.instances = some (filter_empty_instances ins1) :=
  claim_C2 rfl rfl (by rfl)

theorem claim_C3_witness :
    c3out.instances = none ∧ c3out.annotations = none ∧
    c3out.sem_seg_file_name = none :=
  @claim_C3 testWorld iMap c3d c3out rfl rfl (by rfl)

theorem claim_C4_witness :
    CustomDatasetMapper.init { c4args with use_tar_dataset := true } =
      .error .notImplementedError ∧
    ∃ mp, CustomDatasetMapper.init { c4args with use_tar_dataset := false } =
      .ok mp :=
  claim_C4 c4args (fun h => absurd h (by decide))

theorem claim_C5_witness :
    c5out.pos_category_ids = some (tDict.pos_category_ids.getD []) ∧
    (∃ t, c5m.dataset_ann.get? 0 = some t ∧ c5out.ann_type = some t) ∧
    (∀ (l : List String) (out2 : DatasetDict),
      CustomDatasetMapper.call testWorld { c5m with dataset_ann := l }
        tDict = .ok out2 →
      out2.instances = c5out.instances) :=
  claim_C5 rfl rfl rfl rfl (by rfl)

theorem claim_C6_witness :
    c6out.dataset_source = some 0 ∧
    ∃ ins, c6out.instances = some ins ∧
      c6out.pos_category_ids = some (sortedSet ins.gt_classes) :=
  @claim_C6 testWorld c6m c6d c6out [tAnno, tCrowd] rfl rfl rfl
    (Or.inl rfl) (by rfl)

theorem claim_C7_witness :
    (∀ i, i < [tDict].length → c7res.1.get? i = [tDict].get? i) ∧
    c7res.2 = [tDict].length ∧ c7res.2 ≠ 0 ∧
    ∃ d out, [tDict].get? 0 = some d ∧
      CustomDatasetMapper.call testWorld tMap d = .ok out ∧
      c7res.1.get? c7res.2 = some out :=
  claim_C7 (by rfl)

theorem claim_C8_witness :
    ∃ ins msks, c8out.instances = some ins ∧ ins.gt_masks = some msks ∧
      ins.gt_boxes = msks.map maskTightBox :=
  @claim_C8 testWorld c8m tDict c8out [tAnno, tCrowd] rfl rfl rfl (by rfl)

theorem claim_C9_witness :
    CustomDatasetMapper.call testWorld c9m c9d = .error .attributeError :=
  @claim_C9 c4args c9m testWorld c9d (by rfl) rfl

theorem claim_C10_witness :
    (dMap.is_debug = false → c10d.file_name = some "img.jpg" →
      c10d.width = none → c10d.height = none →
      CustomDatasetMapper.call testWorld dMap c10d = .error .keyError) ∧
    (dMap.is_debug = true → selectedAugs dMap (some 0) ≠ .error .keyError) :=
  claim_C10 rfl rfl rfl

end MMOvod
